import Mathlib

/-!
Shallow embedding of `invenio_logging/sentry.py` (class `InvenioLoggingSentry`).

The Python module wires the sentry-sdk error-reporting client into a Flask
application: `init_app` merges defaults, early-returns when `SENTRY_DSN` is
`None` or when `sentry_sdk` failed to import, and otherwise installs the log
handler, registers the extension and a template context processor.
`install_handler` resolves the configured level via `getattr(logging, name)`,
computes the `in_app_exclude` list, delegates to `install_sentry_sdk_handler`
(which builds the integration list and calls `sentry_sdk.init`), and in debug
mode attaches a console handler to the werkzeug logger.
`add_request_id_sentry_python` is the `before_send` hook, and
`sentry_app_context` is the registered template context processor.

External effects (logger warnings, `sentry_sdk.init` calls, registered
extensions and context processors, the werkzeug logger, the scope level) are
recorded as explicit fields of the `App` state; Python exceptions are
`Except.error` values of type `PyErr`.
-/

set_option autoImplicit false

/-- Python exceptions that the embedded code paths can raise:
`AttributeError` from `getattr(logging, name)` on an unknown name,
`RuntimeError` ("working outside of application context") from touching the
unbound Flask `g` proxy, and `TypeError` ("got multiple values for keyword
argument ...") from calling `sentry_sdk.init` with a keyword that is both
explicit and inside `**init_kwargs`. -/
inductive PyErr where
  | attributeError (name : String)
  | runtimeError
  | typeErrorDuplicateKw (key : String)
  deriving DecidableEq, Repr

/-- The sentry-sdk integration objects used by `install_sentry_sdk_handler`:
`FlaskIntegration`, `CeleryIntegration`, `SqlalchemyIntegration`,
`RedisIntegration`. -/
inductive Integration where
  | flask
  | celery
  | sqlalchemy
  | redis
  deriving DecidableEq, Repr

/-- An attribute of the Python `logging` module: either an integer severity
level constant or some other (non-level) module member such as a function. -/
inductive LoggingAttr where
  | level (n : Nat)
  | func (name : String)
  deriving DecidableEq, Repr

/-- The names in the logging framework's severity-level table
(`logging.CRITICAL` … `logging.NOTSET`, with the legacy aliases). -/
def severity_level_names : List String :=
  ["CRITICAL", "FATAL", "ERROR", "WARNING", "WARN", "INFO", "DEBUG", "NOTSET"]

/-- Model of `getattr(logging, name)`: the namespace of the Python `logging`
module, restricted to the level constants plus representative non-level
members (the real module exposes many more non-level attributes; `getLogger`
and `StreamHandler` stand in for them — any of them makes `getattr` succeed
without naming a severity level). Returns `none` where Python raises
`AttributeError`. -/
def logging_module_attr (name : String) : Option LoggingAttr :=
  if name = "CRITICAL" then some (LoggingAttr.level 50)
  else if name = "FATAL" then some (LoggingAttr.level 50)
  else if name = "ERROR" then some (LoggingAttr.level 40)
  else if name = "WARNING" then some (LoggingAttr.level 30)
  else if name = "WARN" then some (LoggingAttr.level 30)
  else if name = "INFO" then some (LoggingAttr.level 20)
  else if name = "DEBUG" then some (LoggingAttr.level 10)
  else if name = "NOTSET" then some (LoggingAttr.level 0)
  else if name = "getLogger" then some (LoggingAttr.func "getLogger")
  else if name = "StreamHandler" then some (LoggingAttr.func "StreamHandler")
  else none

/-- The application configuration snapshot after `init_config` has merged the
defaults module into `app.config` via `setdefault` (the defaults module
`invenio_logging/config.py` is outside the embedded source; every key the
code reads is present after the merge, so the snapshot is total).
`SENTRY_DSN` is `none` for Python `None`; the empty string is `some ""`.
`LOGGING_SENTRY_INIT_KWARGS` is the kwargs dict as an association list
(Python dict keys are unique; the model does not rely on that). -/
structure Config where
  SENTRY_DSN : Option String
  LOGGING_SENTRY_LEVEL : String
  LOGGING_SENTRY_PYWARNINGS : Bool
  LOGGING_SENTRY_CELERY : Bool
  LOGGING_SENTRY_SQLALCHEMY : Bool
  LOGGING_SENTRY_REDIS : Bool
  LOGGING_SENTRY_INIT_KWARGS : List (String × String)
  deriving DecidableEq, Repr

/-- One recorded call to `sentry_sdk.init`: the keyword arguments the code
passes explicitly (`dsn`, `in_app_exclude`, `integrations`, `before_send`)
plus the extra kwargs expanded from `LOGGING_SENTRY_INIT_KWARGS`.
`before_send_set` records that `self.add_request_id_sentry_python` was passed
as the `before_send` callback. -/
structure InitCall where
  dsn : Option String
  in_app_exclude : Option (List String)
  integrations : List Integration
  before_send_set : Bool
  extra_kwargs : List (String × String)
  deriving DecidableEq, Repr

/-- The Flask application as seen by the extension, with the observable side
effects of initialization recorded explicitly: `extensions` is the keys added
to `app.extensions`, `contextProcessors` the names of registered template
context processors, `warnings` the messages logged via `app.logger.warning`,
`sdkInits` the calls made to `sentry_sdk.init`, `werkzeugLevel` /
`werkzeugHandlers` the level and handler count of the werkzeug logger, and
`scopeLevel` the level stored on the sentry scope. -/
structure App where
  config : Config
  debug : Bool
  extensions : List String
  contextProcessors : List String
  warnings : List String
  sdkInits : List InitCall
  werkzeugLevel : Option Nat
  werkzeugHandlers : Nat
  scopeLevel : Option LoggingAttr
  deriving DecidableEq, Repr

/-- The Flask request-local namespace `g`. `bound = false` models the unbound
proxy outside an application context (where `bool(g)` is `False` and any
attribute write raises `RuntimeError`); the two attribute fields are `none`
when the attribute is absent. -/
structure GState where
  bound : Bool
  request_id : Option String
  sentry_event_id : Option String
  deriving DecidableEq, Repr

/-- A sentry event as far as the hook touches it: the `tags` entry (a list of
`[key, value]` pairs; `none` models both an absent key and a `None` value)
and the remaining payload, which the code never reads or writes. -/
structure Event where
  tags : Option (List (String × String))
  extra : List (String × String)
  deriving DecidableEq, Repr

/-- The warning logged by `init_app` when `SENTRY_DSN` is set but the
`sentry_sdk` import failed. -/
def sentry_sdk_missing_warning : String :=
  "The SENTRY_DSN config is set, but sentry-sdk is not installed. Please install sentry-sdk to use the Sentry logging extension."

/-- The keyword arguments `install_sentry_sdk_handler` passes explicitly to
`sentry_sdk.init`; an extra kwarg with one of these keys makes the Python
call raise `TypeError: got multiple values for keyword argument`. -/
def explicit_init_keys : List String :=
  ["dsn", "in_app_exclude", "integrations", "before_send"]

/-- Model of the `sentry_sdk.init(dsn=…, in_app_exclude=…, integrations=…,
before_send=…, **init_kwargs)` call: Python rejects a key of `init_kwargs`
that collides with an explicit keyword before the callee runs; otherwise the
call is recorded. -/
def sentry_sdk_init (dsn : Option String) (in_app_exclude : Option (List String))
    (integrations : List Integration) (extra_kwargs : List (String × String)) :
    Except PyErr InitCall :=
  match extra_kwargs.find? (fun kv => explicit_init_keys.contains kv.1) with
  | some kv => Except.error (PyErr.typeErrorDuplicateKw kv.1)
  | none => Except.ok ⟨dsn, in_app_exclude, integrations, true, extra_kwargs⟩

/-- `InvenioLoggingSentry.install_sentry_sdk_handler` (sentry.py lines
88-116): build the integration list (Flask always, then Celery, Sqlalchemy,
Redis when their toggles are true), take `init_kwargs` from
`LOGGING_SENTRY_INIT_KWARGS` when that value is truthy (a non-empty dict),
call `sentry_sdk.init`, then set the scope level. -/
def install_sentry_sdk_handler (app : App) (logging_exclusions : Option (List String))
    (level : LoggingAttr) : Except PyErr App :=
  let integrations :=
    [Integration.flask]
      ++ (if app.config.LOGGING_SENTRY_CELERY then [Integration.celery] else [])
      ++ (if app.config.LOGGING_SENTRY_SQLALCHEMY then [Integration.sqlalchemy] else [])
      ++ (if app.config.LOGGING_SENTRY_REDIS then [Integration.redis] else [])
  let init_kwargs :=
    if app.config.LOGGING_SENTRY_INIT_KWARGS.isEmpty then []
    else app.config.LOGGING_SENTRY_INIT_KWARGS
  match sentry_sdk_init app.config.SENTRY_DSN logging_exclusions integrations init_kwargs with
  | Except.error e => Except.error e
  | Except.ok call =>
      Except.ok { app with sdkInits := app.sdkInits ++ [call], scopeLevel := some level }

/-- `InvenioLoggingSentry.install_handler` (sentry.py lines 63-86): resolve
the level via `getattr(logging, app.config["LOGGING_SENTRY_LEVEL"])`
(raising `AttributeError` on an unknown name), compute the fixed
`in_app_exclude` list unless `LOGGING_SENTRY_PYWARNINGS` is true, delegate to
`install_sentry_sdk_handler`, and in debug mode set the werkzeug logger to
INFO and add a stream handler to it. -/
def install_handler (app : App) : Except PyErr App :=
  match logging_module_attr app.config.LOGGING_SENTRY_LEVEL with
  | none => Except.error (PyErr.attributeError app.config.LOGGING_SENTRY_LEVEL)
  | some level =>
      let logging_exclusions : Option (List String) :=
        if app.config.LOGGING_SENTRY_PYWARNINGS then none
        else some ["gunicorn", "south", "sentry.errors", "django.request", "dill", "py.warnings"]
      match install_sentry_sdk_handler app logging_exclusions level with
      | Except.error e => Except.error e
      | Except.ok app1 =>
          if app1.debug then
            Except.ok { app1 with werkzeugLevel := some 20,
                                  werkzeugHandlers := app1.werkzeugHandlers + 1 }
          else Except.ok app1

/-- `InvenioLoggingSentry.init_config` (sentry.py lines 57-61): `setdefault`
every `LOGGING_SENTRY*` / `SENTRY_*` key from the defaults module. The
`Config` snapshot models the post-merge state in which every key is present,
so the merge is the identity on it. -/
def init_config (app : App) : App := app

/-- `InvenioLoggingSentry.init_app` (sentry.py lines 29-55): merge config
defaults; return if `SENTRY_DSN` is `None`; warn once and return if the
`sentry_sdk` import failed (`sdk_installed = false`); otherwise install the
handler, register the extension under `"invenio-logging-sentry"` and
register the `sentry_app_context` template context processor. -/
def init_app (sdk_installed : Bool) (app0 : App) : Except PyErr App :=
  let app := init_config app0
  match app.config.SENTRY_DSN with
  | none => Except.ok app
  | some _ =>
      if sdk_installed = false then
        Except.ok { app with warnings := app.warnings ++ [sentry_sdk_missing_warning] }
      else
        match install_handler app with
        | Except.error e => Except.error e
        | Except.ok app1 =>
            Except.ok { app1 with
              extensions := app1.extensions ++ ["invenio-logging-sentry"],
              contextProcessors := app1.contextProcessors ++ ["sentry_app_context"] }

/-- The template context processor `sentry_app_context` (sentry.py lines
50-53): assign `g.sentry_event_id = sentry_sdk.last_event_id()` (an attribute
write that raises `RuntimeError` on the unbound proxy) and return the dict
exposing the just-read value under `"sentry_event_id"`. `last_event_id` is
the value `sentry_sdk.last_event_id()` returns at this point. -/
def sentry_app_context (last_event_id : Option String) (g : GState) :
    Except PyErr (GState × List (String × Option String)) :=
  if g.bound then
    Except.ok ({ g with sentry_event_id := last_event_id },
      [("sentry_event_id", last_event_id)])
  else Except.error PyErr.runtimeError

/-- The `before_send` hook `InvenioLoggingSentry.add_request_id_sentry_python`
(sentry.py lines 118-127): when `g` is truthy and has a `request_id`, append
`["request_id", g.request_id]` to `event.get("tags") or []` and store the
list back under `"tags"`; then read `sentry_sdk.last_event_id()` (modelled by
the `last_event_id` argument) and, when it is not `None`, write it to
`g.sentry_event_id` — a write that raises `RuntimeError` when `g` is unbound.
Returns the (possibly updated) `g` and event. The `hint` argument is unused
by the source. -/
def add_request_id_sentry_python (last_event_id : Option String) (g : GState)
    (event : Event) (_hint : Unit) : Except PyErr (GState × Event) :=
  let event1 :=
    match g.bound, g.request_id with
    | true, some rid =>
        { event with tags := some ((event.tags.getD []) ++ [("request_id", rid)]) }
    | _, _ => event
  match last_event_id with
  | none => Except.ok (g, event1)
  | some eid =>
      if g.bound then Except.ok ({ g with sentry_event_id := some eid }, event1)
      else Except.error PyErr.runtimeError

/-! ## Claims -/

/-- Claim C1 counterexample: an application whose `SENTRY_DSN` is the empty
string (which the claim counts as "unset") is NOT a no-op — `init_app`
registers the extension, the context processor and an sdk init call, because
the code only guards `SENTRY_DSN is None`. -/
theorem c1_counterexample :
    init_app true
        ⟨⟨some "", "WARNING", false, false, false, false, []⟩,
          false, [], [], [], [], none, 0, none⟩
      = Except.ok
        ⟨⟨some "", "WARNING", false, false, false, false, []⟩,
          false, ["invenio-logging-sentry"], ["sentry_app_context"], [],
          [⟨some "",
            some ["gunicorn", "south", "sentry.errors", "django.request", "dill", "py.warnings"],
            [Integration.flask], true, []⟩],
          none, 0, some (LoggingAttr.level 30)⟩
      ∧ (["invenio-logging-sentry"] : List String) ≠ [] :=
  ⟨rfl, by decide⟩

/-- Claim C1 (amended): only for applications whose `SENTRY_DSN` is null
(`None`) does `init_app` return without side effects beyond the
configuration-default merge — no handler, no extension, no context
processor; an empty-string DSN does not take this early return. -/
theorem c1_dsn_none_noop (sdk_installed : Bool) (app : App)
    (h : app.config.SENTRY_DSN = none) :
    init_app sdk_installed app = Except.ok app := by
  simp [init_app, init_config, h]

/-- Witness for `c1_dsn_none_noop` at a concrete application. -/
theorem c1_dsn_none_noop_witness :
    init_app true
        ⟨⟨none, "WARNING", false, true, true, true, []⟩,
          true, [], [], [], [], none, 0, none⟩
      = Except.ok
        ⟨⟨none, "WARNING", false, true, true, true, []⟩,
          true, [], [], [], [], none, 0, none⟩ :=
  c1_dsn_none_noop true _ rfl

/-- Claim C2 counterexample: with the request-scoped marker already holding
`"X"` while the client's `last_event_id()` is `"Y"`, the context processor
exposes `"Y"` — it always queries the client and never falls back to the
stored marker, contrary to the claim. -/
theorem c2_counterexample :
    sentry_app_context (some "Y") ⟨true, none, some "X"⟩
      = Except.ok (⟨true, none, some "Y"⟩, [("sentry_event_id", some "Y")])
      ∧ (some "Y" : Option String) ≠ some "X" :=
  ⟨rfl, by decide⟩

/-- Claim C2 (amended): the context processor unconditionally queries the
client's `last_event_id()`, overwrites the request-scoped marker with it,
and returns a mapping exposing that value under the key
`"sentry_event_id"` (it never reads the previously stored marker). -/
theorem c2_context_processor (last_event_id : Option String) (g : GState)
    (p : GState × List (String × Option String))
    (h : sentry_app_context last_event_id g = Except.ok p) :
    p.2 = [("sentry_event_id", last_event_id)]
      ∧ p.1.sentry_event_id = last_event_id := by
  simp only [sentry_app_context] at h
  split at h
  · injection h with h1
    subst h1
    exact ⟨rfl, rfl⟩
  · simp at h

/-- Witness for `c2_context_processor` at a concrete state. -/
theorem c2_context_processor_witness :
    ([(("sentry_event_id" : String), (some "Y" : Option String))]
        = [("sentry_event_id", some "Y")])
      ∧ (GState.mk true none (some "Y")).sentry_event_id = some "Y" :=
  c2_context_processor (some "Y") ⟨true, none, some "X"⟩
    (⟨true, none, some "Y"⟩, [("sentry_event_id", some "Y")]) rfl

/-- Claim C3: when `SENTRY_DSN` is set but the `sentry_sdk` import failed,
`init_app` appends exactly one warning to the application logger and changes
nothing else — no handler, no extension, no context processor — for every
configuration. -/
theorem c3_sdk_missing_warns_once (app : App) (d : String)
    (h : app.config.SENTRY_DSN = some d) :
    init_app false app
      = Except.ok { app with warnings := app.warnings ++ [sentry_sdk_missing_warning] } := by
  simp [init_app, init_config, h]

/-- Witness for `c3_sdk_missing_warns_once` at a concrete application. -/
theorem c3_sdk_missing_warns_once_witness :
    init_app false
        ⟨⟨some "dsn1", "WARNING", true, true, true, true, [("k", "v")]⟩,
          true, [], [], ["w0"], [], none, 0, none⟩
      = Except.ok
        ⟨⟨some "dsn1", "WARNING", true, true, true, true, [("k", "v")]⟩,
          true, [], [], ["w0", sentry_sdk_missing_warning], [], none, 0, none⟩ :=
  c3_sdk_missing_warns_once _ "dsn1" rfl

/-- Shape of a successful `install_sentry_sdk_handler` run: the app gains
exactly one recorded `sentry_sdk.init` call, carrying the configured DSN, the
given exclusions, the integration list built from the toggles, the
`before_send` hook, and the extra kwargs; the scope level is set. -/
theorem install_sentry_sdk_handler_ok_shape (app : App) (excl : Option (List String))
    (lvl : LoggingAttr) (app' : App)
    (h : install_sentry_sdk_handler app excl lvl = Except.ok app') :
    app' = { app with
      sdkInits := app.sdkInits ++
        [⟨app.config.SENTRY_DSN, excl,
          [Integration.flask]
            ++ (if app.config.LOGGING_SENTRY_CELERY then [Integration.celery] else [])
            ++ (if app.config.LOGGING_SENTRY_SQLALCHEMY then [Integration.sqlalchemy] else [])
            ++ (if app.config.LOGGING_SENTRY_REDIS then [Integration.redis] else []),
          true,
          if app.config.LOGGING_SENTRY_INIT_KWARGS.isEmpty then []
          else app.config.LOGGING_SENTRY_INIT_KWARGS⟩],
      scopeLevel := some lvl } := by
  simp only [install_sentry_sdk_handler, sentry_sdk_init] at h
  split at h
  · simp at h
  · injection h with h1
    subst h1
    rename_i call heq
    split at heq
    · simp at heq
    · injection heq with h2
      subst h2
      rfl

/-- Claim C4: the integration list passed to `sentry_sdk.init` always starts
with the Flask integration, followed by the Celery, Sqlalchemy and Redis
integrations in that fixed order, each present exactly when its toggle is
true; in particular with `LOGGING_SENTRY_CELERY = true`,
`LOGGING_SENTRY_SQLALCHEMY = false`, `LOGGING_SENTRY_REDIS = true` the list
is exactly `[flask, celery, redis]`. -/
theorem c4_integration_list (app : App) (excl : Option (List String))
    (lvl : LoggingAttr) (app' : App)
    (h : install_sentry_sdk_handler app excl lvl = Except.ok app') :
    ∃ call, app'.sdkInits = app.sdkInits ++ [call]
      ∧ call.integrations.head? = some Integration.flask
      ∧ (Integration.celery ∈ call.integrations
          ↔ app.config.LOGGING_SENTRY_CELERY = true)
      ∧ (Integration.sqlalchemy ∈ call.integrations
          ↔ app.config.LOGGING_SENTRY_SQLALCHEMY = true)
      ∧ (Integration.redis ∈ call.integrations
          ↔ app.config.LOGGING_SENTRY_REDIS = true)
      ∧ List.Sublist call.integrations
          [Integration.flask, Integration.celery, Integration.sqlalchemy, Integration.redis]
      ∧ (app.config.LOGGING_SENTRY_CELERY = true
          → app.config.LOGGING_SENTRY_SQLALCHEMY = false
          → app.config.LOGGING_SENTRY_REDIS = true
          → call.integrations = [Integration.flask, Integration.celery, Integration.redis]) := by
  have hs := install_sentry_sdk_handler_ok_shape app excl lvl app' h
  subst hs
  refine ⟨_, rfl, ?_⟩
  cases app.config.LOGGING_SENTRY_CELERY
    <;> cases app.config.LOGGING_SENTRY_SQLALCHEMY
    <;> cases app.config.LOGGING_SENTRY_REDIS
    <;> simp

/-- Witness for `c4_integration_list` at a concrete application with
Celery on, Sqlalchemy off, Redis on. -/
theorem c4_integration_list_witness :
    ∃ call,
      (App.mk ⟨some "d", "WARNING", false, true, false, true, []⟩ false [] [] []
          [⟨some "d", none, [Integration.flask, Integration.celery, Integration.redis], true, []⟩]
          none 0 (some (LoggingAttr.level 30))).sdkInits
        = (App.mk ⟨some "d", "WARNING", false, true, false, true, []⟩ false [] [] [] []
            none 0 none).sdkInits ++ [call]
      ∧ call.integrations.head? = some Integration.flask
      ∧ (Integration.celery ∈ call.integrations ↔ true = true)
      ∧ (Integration.sqlalchemy ∈ call.integrations ↔ false = true)
      ∧ (Integration.redis ∈ call.integrations ↔ true = true)
      ∧ List.Sublist call.integrations
          [Integration.flask, Integration.celery, Integration.sqlalchemy, Integration.redis]
      ∧ (true = true → false = false → true = true
          → call.integrations = [Integration.flask, Integration.celery, Integration.redis]) :=
  c4_integration_list
    ⟨⟨some "d", "WARNING", false, true, false, true, []⟩, false, [], [], [], [], none, 0, none⟩
    none (LoggingAttr.level 30) _ rfl

/-- Claim C5: whenever `install_handler` completes, the `in_app_exclude`
argument of the recorded `sentry_sdk.init` call is the fixed six-entry list
when `LOGGING_SENTRY_PYWARNINGS` is false, and null when it is true. -/
theorem c5_exclusion_list (app : App) (app' : App)
    (h : install_handler app = Except.ok app') :
    ∃ call, app'.sdkInits = app.sdkInits ++ [call]
      ∧ call.in_app_exclude =
          (if app.config.LOGGING_SENTRY_PYWARNINGS then none
           else some ["gunicorn", "south", "sentry.errors", "django.request", "dill", "py.warnings"]) := by
  simp only [install_handler] at h
  split at h
  · simp at h
  · rename_i level hlevel
    split at h
    · simp at h
    · rename_i app1 heq
      have hs := install_sentry_sdk_handler_ok_shape app _ level app1 heq
      split at h <;> injection h with h1 <;> subst h1 <;> subst hs <;> exact ⟨_, rfl, rfl⟩

/-- Witness for `c5_exclusion_list` at a concrete application with
`LOGGING_SENTRY_PYWARNINGS = true`. -/
theorem c5_exclusion_list_witness :
    ∃ call,
      (App.mk ⟨some "d", "INFO", true, false, false, false, []⟩ false [] [] []
          [⟨some "d", none, [Integration.flask], true, []⟩]
          none 0 (some (LoggingAttr.level 20))).sdkInits
        = (App.mk ⟨some "d", "INFO", true, false, false, false, []⟩ false [] [] [] []
            none 0 none).sdkInits ++ [call]
      ∧ call.in_app_exclude =
          (if true then none
           else some ["gunicorn", "south", "sentry.errors", "django.request", "dill", "py.warnings"]) :=
  c5_exclusion_list
    ⟨⟨some "d", "INFO", true, false, false, false, []⟩, false, [], [], [], [], none, 0, none⟩
    _ rfl

/-- Claim C6: when the request-local namespace is bound and holds a
`request_id`, the hook returns the event with the pair
`("request_id", <id>)` appended to the pre-existing tag list (created when
absent) and everything else untouched; when no `request_id` is present, a
returned event is unmodified. -/
theorem c6_request_id_tagging (last_event_id : Option String) (b : Bool)
    (rq se : Option String) (e : Event) :
    (∀ rid, b = true → rq = some rid →
      ∀ g' e', add_request_id_sentry_python last_event_id ⟨b, rq, se⟩ e ()
          = Except.ok (g', e') →
        e'.tags = some ((e.tags.getD []) ++ [("request_id", rid)])
          ∧ e'.extra = e.extra) ∧
    ((b = false ∨ rq = none) →
      ∀ g' e', add_request_id_sentry_python last_event_id ⟨b, rq, se⟩ e ()
          = Except.ok (g', e') →
        e' = e) := by
  constructor
  · rintro rid rfl rfl g' e' hp
    cases last_event_id <;> simp [add_request_id_sentry_python] at hp <;>
      obtain ⟨h1, h2⟩ := hp <;> subst h2 <;> exact ⟨rfl, rfl⟩
  · rintro (rfl | rfl) g' e' hp
    · cases last_event_id <;> simp [add_request_id_sentry_python] at hp
      · obtain ⟨h1, h2⟩ := hp
        subst h2
        rfl
    · cases last_event_id <;> cases b <;> simp [add_request_id_sentry_python] at hp <;>
        obtain ⟨h1, h2⟩ := hp <;> subst h2 <;> rfl

/-- Witness for `c6_request_id_tagging`: a bound namespace with
`request_id = "r1"` and an event that already has one tag. -/
theorem c6_request_id_tagging_witness :
    (Event.mk (some [("k", "v"), ("request_id", "r1")]) []).tags
        = some (((Event.mk (some [("k", "v")]) []).tags.getD [])
            ++ [("request_id", "r1")])
      ∧ (Event.mk (some [("k", "v"), ("request_id", "r1")]) []).extra
          = (Event.mk (some [("k", "v")]) []).extra :=
  (c6_request_id_tagging (some "e1") true (some "r1") none
      ⟨some [("k", "v")], []⟩).1 "r1" rfl rfl
    ⟨true, some "r1", some "e1"⟩ ⟨some [("k", "v"), ("request_id", "r1")], []⟩ rfl

/-- Claim C7 counterexample: when `sentry_sdk.last_event_id()` is `None` and
the marker holds a stale value, the hook returns successfully but the marker
(`"old"`) differs from the client's reported id (`None`) — the claimed
equality fails. -/
theorem c7_counterexample :
    add_request_id_sentry_python none ⟨true, none, some "old"⟩ ⟨none, []⟩ ()
        = Except.ok (⟨true, none, some "old"⟩, ⟨none, []⟩)
      ∧ (GState.mk true none (some "old")).sentry_event_id ≠ none :=
  ⟨rfl, by decide⟩

/-- Claim C7 (amended): after the hook returns, the request-local marker
equals the client's `last_event_id()` whenever that id is non-null; when the
client reports no id, the marker is left at its previous value (possibly
stale) rather than being cleared. -/
theorem c7_event_id_update (last_event_id : Option String) (g g' : GState)
    (e e' : Event)
    (h : add_request_id_sentry_python last_event_id g e () = Except.ok (g', e')) :
    (∀ eid, last_event_id = some eid → g'.sentry_event_id = some eid)
      ∧ (last_event_id = none → g'.sentry_event_id = g.sentry_event_id) := by
  constructor
  · rintro eid rfl
    cases hb : g.bound <;> simp [add_request_id_sentry_python, hb] at h
    obtain ⟨h1, h2⟩ := h
    subst h1
    rfl
  · rintro rfl
    simp [add_request_id_sentry_python] at h
    obtain ⟨h1, h2⟩ := h
    subst h1
    rfl

/-- Witness for `c7_event_id_update` at a bound namespace with a fresh
event id. -/
theorem c7_event_id_update_witness :
    (∀ eid, (some "e2" : Option String) = some eid
        → (GState.mk true none (some "e2")).sentry_event_id = some eid)
      ∧ ((some "e2" : Option String) = none
        → (GState.mk true none (some "e2")).sentry_event_id
            = (GState.mk true none none).sentry_event_id) :=
  c7_event_id_update (some "e2") ⟨true, none, none⟩ ⟨true, none, some "e2"⟩
    ⟨none, []⟩ ⟨none, []⟩ rfl

/-- Claim C8 counterexample: `LOGGING_SENTRY_LEVEL = "getLogger"` is not a
severity-level name, yet `install_handler` does not fail — `getattr` resolves
any attribute of the `logging` module, and the resolved function object is
silently stored as the scope level. -/
theorem c8_counterexample :
    install_handler
        ⟨⟨some "d", "getLogger", false, false, false, false, []⟩,
          false, [], [], [], [], none, 0, none⟩
      = Except.ok
        ⟨⟨some "d", "getLogger", false, false, false, false, []⟩,
          false, [], [], [],
          [⟨some "d",
            some ["gunicorn", "south", "sentry.errors", "django.request", "dill", "py.warnings"],
            [Integration.flask], true, []⟩],
          none, 0, some (LoggingAttr.func "getLogger")⟩
      ∧ "getLogger" ∉ severity_level_names :=
  ⟨rfl, by decide⟩

/-- Helper: `install_sentry_sdk_handler` can only fail with the
duplicate-keyword `TypeError`, never with an `AttributeError`. -/
theorem install_sentry_sdk_handler_no_attribute_error (app : App)
    (excl : Option (List String)) (lvl : LoggingAttr) (name : String) :
    install_sentry_sdk_handler app excl lvl ≠ Except.error (PyErr.attributeError name) := by
  simp only [install_sentry_sdk_handler, sentry_sdk_init]
  split
  · rename_i e heq
    split at heq
    · injection heq with h1
      subst h1
      simp
    · simp at heq
  · simp

/-- Claim C8 (amended): the configured `LOGGING_SENTRY_LEVEL` name is
resolved by attribute lookup on the `logging` module, and `install_handler`
fails with the propagated lookup (`AttributeError`) exactly when the name is
not an attribute of that module — a strictly weaker condition than naming a
valid severity level, since non-level attributes such as `"getLogger"`
resolve without error (see `c8_counterexample`). -/
theorem c8_level_lookup_error (app : App) :
    install_handler app
        = Except.error (PyErr.attributeError app.config.LOGGING_SENTRY_LEVEL)
      ↔ logging_module_attr app.config.LOGGING_SENTRY_LEVEL = none := by
  cases hattr : logging_module_attr app.config.LOGGING_SENTRY_LEVEL
  · simp [install_handler, hattr]
  · simp only [install_handler, hattr]
    constructor
    · intro h
      split at h
      · rename_i e heq
        injection h with h1
        subst h1
        exact absurd heq (install_sentry_sdk_handler_no_attribute_error app _ _ _)
      · split at h <;> simp at h
    · intro h
      simp at h

/-- Claim C9: outside a request context (unbound, falsy `g`) with a non-null
`last_event_id()`, the hook's unguarded write `g.sentry_event_id = event_id`
raises instead of returning the event — only the tag-append step is guarded
by the namespace-presence check. -/
theorem c9_unbound_write_raises (eid : String) (g : GState) (e : Event)
    (h : g.bound = false) :
    add_request_id_sentry_python (some eid) g e () = Except.error PyErr.runtimeError := by
  simp [add_request_id_sentry_python, h]

/-- Witness for `c9_unbound_write_raises` at an unbound namespace. -/
theorem c9_unbound_write_raises_witness :
    add_request_id_sentry_python (some "e9") ⟨false, none, none⟩ ⟨none, []⟩ ()
      = Except.error PyErr.runtimeError :=
  c9_unbound_write_raises "e9" ⟨false, none, none⟩ ⟨none, []⟩ rfl

/-- Claim C10: when `LOGGING_SENTRY_INIT_KWARGS` contains any of the keys
passed explicitly (`dsn`, `in_app_exclude`, `integrations`, `before_send`),
the `sentry_sdk.init` call raises a duplicate-keyword-argument `TypeError`
instead of silently overriding the computed value. -/
theorem c10_duplicate_kwarg_raises (app : App) (excl : Option (List String))
    (lvl : LoggingAttr) (k : String)
    (hk : k ∈ app.config.LOGGING_SENTRY_INIT_KWARGS.map Prod.fst)
    (hexp : k ∈ explicit_init_keys) :
    ∃ k', install_sentry_sdk_handler app excl lvl
        = Except.error (PyErr.typeErrorDuplicateKw k') := by
  have hne : app.config.LOGGING_SENTRY_INIT_KWARGS.isEmpty = false := by
    cases hkw : app.config.LOGGING_SENTRY_INIT_KWARGS
    · rw [hkw] at hk
      simp at hk
    · rfl
  have hfind : (app.config.LOGGING_SENTRY_INIT_KWARGS.find?
      (fun kv => explicit_init_keys.contains kv.1)).isSome := by
    refine List.find?_isSome.mpr ?_
    obtain ⟨a, hmem, hfst⟩ := List.mem_map.mp hk
    refine ⟨a, hmem, ?_⟩
    rw [hfst]
    exact List.elem_iff.mpr hexp
  obtain ⟨kv, hkv⟩ := Option.isSome_iff_exists.mp hfind
  refine ⟨kv.1, ?_⟩
  simp only [install_sentry_sdk_handler, sentry_sdk_init, hne]
  simp only [Bool.false_eq_true, if_false, hkv]

/-- Witness for `c10_duplicate_kwarg_raises`: extra kwargs containing the
key `"dsn"`. -/
theorem c10_duplicate_kwarg_raises_witness :
    ∃ k', install_sentry_sdk_handler
        ⟨⟨some "d", "WARNING", false, false, false, false, [("dsn", "x")]⟩,
          false, [], [], [], [], none, 0, none⟩
        none (LoggingAttr.level 30)
      = Except.error (PyErr.typeErrorDuplicateKw k') :=
  c10_duplicate_kwarg_raises _ none (LoggingAttr.level 30) "dsn"
    (by decide) (by decide)
